import Mathlib

/-!
Shallow embedding of the speech-interaction coordinator of the AssistantApp
repository.  The authoritative implementation is the React hook in
`src/hooks/useSpeech.ts`; a second, inline copy of the same coordinator lives
in `src/components/SpeechManager.tsx`.  Both are event-driven: the UI issues
commands (`startListening`, `stopListening`, `speak`, `stopSpeaking`) and the
device recognizer/synthesizer deliver asynchronous events (`start`, `end`,
`result`, `error`, and the per-utterance synthesis callbacks).  Each handler
is translated here as a pure function from the coordinator state to a new
state plus the list of observable side effects it performs (module calls,
alerts, user callbacks, scheduled timers).
-/

/-- Observable side effects performed by the coordinator's handlers:
calls into the recognizer/synthesizer modules, alert dialogs shown to the
user, invocations of the caller-supplied callbacks, and timer scheduling. -/
inductive Effect where
  | recStartCall
  | recStopCall
  | synthSpeakCall (text : String)
  | synthStopCall
  | alertShown (title : String)
  | onResultCall (text : String)
  | onSpeechStartCall
  | onSpeechEndCall
  | scheduleErrorClear (ms : Nat)
deriving DecidableEq, Repr

/-- JavaScript `String.prototype.trim()` as used by the source
(`text.trim()`): strip whitespace from both ends of the string. -/
def jsTrim (s : String) : String :=
  ⟨((s.data.dropWhile Char.isWhitespace).reverse.dropWhile Char.isWhitespace).reverse⟩

/-- Title of the alert shown by `startListening` when recognition is
unavailable (`useSpeech.ts` line 106). -/
def notSupportedTitle : String := "Not Supported"

/-- Title of the alert shown on permission denial and on `not-allowed`
recognition errors (`useSpeech.ts` lines 93 and 118). -/
def permissionRequiredTitle : String := "Permission Required"

/-- Title of the alert shown by the inline SpeechManager copy on a
recoverable recognition error (`SpeechManager.tsx` inline copy). -/
def speechErrorTitle : String := "Speech Recognition Error"

/-- The coordinator state of the `useSpeech` hook: the five React state
variables (`isListening`, `isSpeaking`, `isSupported`, `transcript`,
`speechError`) plus a flag recording that a `setTimeout` clearing
`speechError` is pending. -/
structure SpeechState where
  isListening : Bool
  isSpeaking : Bool
  isSupported : Bool
  transcript : String
  speechError : Bool
  errorClearPending : Bool
deriving DecidableEq, Repr

/-- State right after mount: all `useState` initial values, with
`isSupported` set by `isRecognitionAvailable()` during the mount effect
(`useSpeech.ts` lines 32-64). -/
def initState (supported : Bool) : SpeechState :=
  { isListening := false
    isSpeaking := false
    isSupported := supported
    transcript := ""
    speechError := false
    errorClearPending := false }

/-- `stopListening` (`useSpeech.ts` lines 140-145): when listening, clear
`isListening` and call the recognizer module's `stop()`; otherwise no-op. -/
def stopListening (s : SpeechState) : SpeechState × List Effect :=
  if s.isListening then
    ({ s with isListening := false }, [Effect.recStopCall])
  else
    (s, [])

/-- `startListening` (`useSpeech.ts` lines 104-138): alert and return when
unsupported; stop a live session first; then request permission (its outcome
is the `granted` argument); alert and return on denial; otherwise call the
recognizer module's `start(...)`.  The handler itself never sets
`isListening` (that happens on the recognizer `start` event) and never
touches `transcript`. -/
def startListening (s : SpeechState) (granted : Bool) : SpeechState × List Effect :=
  if !s.isSupported then
    (s, [Effect.alertShown notSupportedTitle])
  else
    let p := if s.isListening then stopListening s else (s, [])
    if !granted then
      (p.1, p.2 ++ [Effect.alertShown permissionRequiredTitle])
    else
      (p.1, p.2 ++ [Effect.recStartCall])

/-- `speak` (`useSpeech.ts` lines 147-168): no-op on whitespace-only text;
otherwise set `isSpeaking` and call `ExpoSpeech.speak(text, ...)`.  There is
no guard on `isListening` and no stop of a prior utterance. -/
def speak (s : SpeechState) (text : String) : SpeechState × List Effect :=
  if jsTrim text = "" then
    (s, [])
  else
    ({ s with isSpeaking := true }, [Effect.synthSpeakCall text])

/-- `stopSpeaking` (`useSpeech.ts` lines 170-177): call `ExpoSpeech.stop()`
and clear `isSpeaking`. -/
def stopSpeaking (s : SpeechState) : SpeechState × List Effect :=
  ({ s with isSpeaking := false }, [Effect.synthStopCall])

/-- Recognizer `start` event handler (`useSpeech.ts` lines 66-70). -/
def onRecStartEvent (s : SpeechState) : SpeechState × List Effect :=
  ({ s with isListening := true }, [Effect.onSpeechStartCall])

/-- Recognizer `end` event handler (`useSpeech.ts` lines 72-76). -/
def onRecEndEvent (s : SpeechState) : SpeechState × List Effect :=
  ({ s with isListening := false }, [Effect.onSpeechEndCall])

/-- Recognizer `result` event handler (`useSpeech.ts` lines 78-85): always
overwrite `transcript` with the event's text; when final and non-blank,
invoke the `onSpeechResult` callback.  No other state is touched and no
staleness check is made. -/
def onRecResultEvent (s : SpeechState) (text : String) (isFinal : Bool) :
    SpeechState × List Effect :=
  let s1 := { s with transcript := text }
  if isFinal ∧ jsTrim text ≠ "" then
    (s1, [Effect.onResultCall text])
  else
    (s1, [])

/-- Recognizer `error` event handler (`useSpeech.ts` lines 87-102): clear
`isListening`, invoke `onSpeechEnd`; for a `not-allowed` error show the
permission alert, otherwise set `speechError` and schedule its clearing
after 2000 ms. -/
def onRecErrorEvent (s : SpeechState) (notAllowed : Bool) : SpeechState × List Effect :=
  let s1 := { s with isListening := false }
  if notAllowed then
    (s1, [Effect.onSpeechEndCall, Effect.alertShown permissionRequiredTitle])
  else
    ({ s1 with speechError := true, errorClearPending := true },
     [Effect.onSpeechEndCall, Effect.scheduleErrorClear 2000])

/-- Firing of the `setTimeout` scheduled by the error handler
(`useSpeech.ts` line 100): clears `speechError`. -/
def onErrorClearTimer (s : SpeechState) : SpeechState :=
  if s.errorClearPending then
    { s with speechError := false, errorClearPending := false }
  else
    s

/-- One input to the coordinator: a UI command, a recognizer event, one of
the per-utterance synthesis callbacks, or the error-clear timer firing.
`startListening` carries the outcome of the asynchronous permission
request; `recError` carries whether the error kind is `not-allowed`. -/
inductive Input where
  | startListening (granted : Bool)
  | stopListening
  | speak (text : String)
  | stopSpeaking
  | recStart
  | recEnd
  | recResult (text : String) (isFinal : Bool)
  | recError (notAllowed : Bool)
  | synthStart
  | synthDone
  | synthStopped
  | synthError
  | errorTimerFire
deriving DecidableEq, Repr

/-- Dispatch one input to the corresponding handler of `useSpeech.ts`.
The synthesis callbacks `onStart`/`onDone`/`onStopped`/`onError` only set
or clear `isSpeaking` (`useSpeech.ts` lines 156-162). -/
def step (s : SpeechState) : Input → SpeechState × List Effect
  | Input.startListening granted => startListening s granted
  | Input.stopListening => stopListening s
  | Input.speak text => speak s text
  | Input.stopSpeaking => stopSpeaking s
  | Input.recStart => onRecStartEvent s
  | Input.recEnd => onRecEndEvent s
  | Input.recResult text isFinal => onRecResultEvent s text isFinal
  | Input.recError notAllowed => onRecErrorEvent s notAllowed
  | Input.synthStart => ({ s with isSpeaking := true }, [])
  | Input.synthDone => ({ s with isSpeaking := false }, [])
  | Input.synthStopped => ({ s with isSpeaking := false }, [])
  | Input.synthError => ({ s with isSpeaking := false }, [])
  | Input.errorTimerFire => (onErrorClearTimer s, [])

/-- Run a sequence of inputs from a state, accumulating the effect trace. -/
def run (s : SpeechState) : List Input → SpeechState × List Effect
  | [] => (s, [])
  | i :: rest =>
    let p := step s i
    let q := run p.1 rest
    (q.1, p.2 ++ q.2)

/-- State of the inline coordinator copy in `src/components/SpeechManager.tsx`:
same flags as the hook but with no `speechError` flag (errors are surfaced
as dialogs there). -/
structure SMState where
  isListening : Bool
  isSpeaking : Bool
  isSupported : Bool
  transcript : String
deriving DecidableEq, Repr

/-- `stopListening` of the inline SpeechManager copy (`SpeechManager.tsx`
inline copy): when listening, call the recognizer module's `stop()` but do
NOT change `isListening` (it is cleared only by the later `end` event). -/
def SM.stopListening (s : SMState) : SMState × List Effect :=
  if s.isListening then
    (s, [Effect.recStopCall])
  else
    (s, [])

/-- Recognizer `error` event handler of the inline SpeechManager copy:
clear `isListening`, invoke `onSpeechEnd`, then show an alert — the
permission alert for `not-allowed`, otherwise a generic error dialog
(no transient flag). -/
def SM.onRecErrorEvent (s : SMState) (notAllowed : Bool) : SMState × List Effect :=
  let s1 := { s with isListening := false }
  if notAllowed then
    (s1, [Effect.onSpeechEndCall, Effect.alertShown permissionRequiredTitle])
  else
    (s1, [Effect.onSpeechEndCall, Effect.alertShown speechErrorTitle])

/-- Sample utterance text used in concrete runs. -/
def helloText : String := "hello"

/-- Sample first utterance for the double-speak run. -/
def firstText : String := "first"

/-- Sample second utterance for the double-speak run. -/
def secondText : String := "second"

/-- Sample final transcript delivered after the session was stopped. -/
def staleText : String := "stale words"

/-- A supported, currently-listening coordinator state. -/
def listeningState : SpeechState :=
  { isListening := true
    isSpeaking := false
    isSupported := true
    transcript := ""
    speechError := false
    errorClearPending := false }

/-- A supported, idle coordinator state holding a previous transcript. -/
def idleWithOldTranscript : SpeechState :=
  { isListening := false
    isSpeaking := false
    isSupported := true
    transcript := staleText
    speechError := false
    errorClearPending := false }

/-- A currently-listening state of the inline SpeechManager copy. -/
def smListeningState : SMState :=
  { isListening := true
    isSpeaking := false
    isSupported := true
    transcript := "" }

/-- Claim C1: the mutual-exclusion invariant fails on the code.  From the
initial supported state, after the recognizer `start` event (listening
becomes active) a `speak` command sets `isSpeaking` without clearing
`isListening`: both capabilities are active at once. -/
theorem c1_mutual_exclusion_violated :
    ((run (initState true) [Input.recStart, Input.speak helloText]).1.isListening = true)
  ∧ ((run (initState true) [Input.recStart, Input.speak helloText]).1.isSpeaking = true) := by
  decide

/-- Claim C2: stale-event idempotence fails on the code.  After
`startListening` then `stopListening`, a late final `result` event still
overwrites `transcript` and still invokes the `onSpeechResult` callback —
there is no session generation counter gating it. -/
theorem c2_stale_final_result_not_ignored :
    ((run (initState true)
        [Input.startListening true, Input.recStart, Input.stopListening,
         Input.recResult staleText true]).1.transcript = staleText)
  ∧ (Effect.onResultCall staleText ∈
      (run (initState true)
        [Input.startListening true, Input.recStart, Input.stopListening,
         Input.recResult staleText true]).2) := by
  decide

/-- Claim C3: speak-while-listening rejection fails on the code.  In a
listening state, `speak` is not rejected: it sets `isSpeaking` and starts
the synthesizer even though `isListening` is true. -/
theorem c3_speak_while_listening_not_rejected :
    (listeningState.isListening = true)
  ∧ ((speak listeningState helloText).1.isSpeaking = true)
  ∧ (Effect.synthSpeakCall helloText ∈ (speak listeningState helloText).2) := by
  decide

/-- Claim C4: last-write-wins fails on the code.  Two consecutive `speak`
commands issue two synthesizer `speak` calls with no intervening
synthesizer `stop` call: the first utterance is never cancelled. -/
theorem c4_prior_utterance_not_stopped :
    (run (initState true) [Input.speak firstText, Input.speak secondText]).2
      = [Effect.synthSpeakCall firstText, Effect.synthSpeakCall secondText] := by
  decide

/-- Claim C5 counterexample: a final non-empty `result` event handled while
listening does not transition the coordinator to Idle — `isListening`
stays true after the handler runs, contrary to the claim. -/
theorem c5_final_result_keeps_listening :
    (onRecResultEvent listeningState helloText true).1.isListening = true := by
  decide

/-- Claim C5 (amended): a final `result` event with non-blank text updates
`transcript` to the final text and invokes the result callback exactly once,
but leaves `isListening` unchanged; the transition to not-listening happens
only at the subsequent recognizer `end` event. -/
theorem c5_final_result_commits_without_idle_transition
    (s : SpeechState) (text : String) (h : jsTrim text ≠ "") :
    ((onRecResultEvent s text true).1.transcript = text)
  ∧ ((onRecResultEvent s text true).2 = [Effect.onResultCall text])
  ∧ ((onRecResultEvent s text true).1.isListening = s.isListening)
  ∧ ((onRecEndEvent (onRecResultEvent s text true).1).1.isListening = false) := by
  refine ⟨?_, ?_, ?_, ?_⟩ <;> simp [onRecResultEvent, onRecEndEvent, h]

/-- Claim C5 witness: the amended statement at a concrete listening state
and the concrete text. -/
theorem c5_witness :
    jsTrim helloText ≠ "" ∧
    (((onRecResultEvent listeningState helloText true).1.transcript = helloText)
  ∧ ((onRecResultEvent listeningState helloText true).2 = [Effect.onResultCall helloText])
  ∧ ((onRecResultEvent listeningState helloText true).1.isListening = listeningState.isListening)
  ∧ ((onRecEndEvent (onRecResultEvent listeningState helloText true).1).1.isListening = false)) :=
  ⟨by decide, c5_final_result_commits_without_idle_transition listeningState helloText (by decide)⟩

/-- Claim C6 counterexample: when recognition is unsupported,
`startListening` is not silent — it shows a user-visible alert dialog. -/
theorem c6_unsupported_start_shows_alert :
    (startListening (initState false) true).2 = [Effect.alertShown notSupportedTitle] := by
  decide

/-- Claim C6 (amended): when `isSupported` is false, `startListening`
returns with no state change and no recognizer `start` call, but it
surfaces a user-visible alert rather than failing silently. -/
theorem c6_unsupported_start_no_op_with_alert
    (s : SpeechState) (granted : Bool) (h : s.isSupported = false) :
    ((startListening s granted).1 = s)
  ∧ ((startListening s granted).2 = [Effect.alertShown notSupportedTitle])
  ∧ (Effect.recStartCall ∉ (startListening s granted).2) := by
  refine ⟨?_, ?_, ?_⟩ <;> simp [startListening, h]

/-- Claim C6 witness: the amended statement at the unsupported initial
state. -/
theorem c6_witness :
    (initState false).isSupported = false ∧
    (((startListening (initState false) true).1 = initState false)
  ∧ ((startListening (initState false) true).2 = [Effect.alertShown notSupportedTitle])
  ∧ (Effect.recStartCall ∉ (startListening (initState false) true).2)) :=
  ⟨by decide, c6_unsupported_start_no_op_with_alert (initState false) true (by decide)⟩

/-- Claim C7 counterexample: `startListening` does not clear the transcript
of the previous session — after starting a new session from an idle state
holding an old transcript, the old transcript is still there. -/
theorem c7_transcript_not_cleared_on_start :
    ((startListening idleWithOldTranscript true).1.transcript = staleText)
  ∧ (staleText ≠ "") := by
  decide

/-- Claim C7 (amended): `startListening` never modifies the transcript (a
previous session's transcript is retained, not cleared), and the recognizer
`end` event never modifies the transcript either, so a transcript committed
by a final result is not reset by a subsequent `end` event. -/
theorem c7_transcript_retained (s : SpeechState) (granted : Bool) :
    ((startListening s granted).1.transcript = s.transcript)
  ∧ ((onRecEndEvent s).1.transcript = s.transcript) := by
  constructor
  · by_cases hsup : s.isSupported <;> by_cases hlis : s.isListening <;>
      cases granted <;> simp [startListening, stopListening, hsup, hlis]
  · simp [onRecEndEvent]

/-- Claim C8: permission denied while idle and supported — the state is
unchanged (`isListening` stays false), the permission alert is surfaced
exactly once, and the recognizer `start` is never called. -/
theorem c8_permission_denied_no_op
    (s : SpeechState) (hsup : s.isSupported = true) (hlis : s.isListening = false) :
    ((startListening s false).1 = s)
  ∧ ((startListening s false).2 = [Effect.alertShown permissionRequiredTitle])
  ∧ (Effect.recStartCall ∉ (startListening s false).2) := by
  refine ⟨?_, ?_, ?_⟩ <;> simp [startListening, stopListening, hsup, hlis]

/-- Claim C8 witness: the permission-denied statement at the supported
initial state. -/
theorem c8_witness :
    (initState true).isSupported = true ∧ (initState true).isListening = false ∧
    (((startListening (initState true) false).1 = initState true)
  ∧ ((startListening (initState true) false).2 = [Effect.alertShown permissionRequiredTitle])
  ∧ (Effect.recStartCall ∉ (startListening (initState true) false).2)) :=
  ⟨by decide, by decide, c8_permission_denied_no_op (initState true) (by decide) (by decide)⟩

/-- Claim C9: a recoverable (non-permission) recognizer error while
listening clears `isListening`, sets `speechError` immediately and
schedules its clearing after the fixed 2000 ms window; when that timer
fires with no further input, `speechError` is false again; and the flag
never blocks further inputs — every input behaves the same (same
`isListening`, `isSpeaking`, `transcript` and same effects) whether the
flag is set or not. -/
theorem c9_error_flag_auto_clears (s : SpeechState) (_h : s.isListening = true) :
    ((onRecErrorEvent s false).1.isListening = false)
  ∧ ((onRecErrorEvent s false).1.speechError = true)
  ∧ (Effect.scheduleErrorClear 2000 ∈ (onRecErrorEvent s false).2)
  ∧ ((onErrorClearTimer (onRecErrorEvent s false).1).speechError = false)
  ∧ (∀ i : Input,
      ((step { s with speechError := true } i).1.isListening
        = (step { s with speechError := false } i).1.isListening)
    ∧ ((step { s with speechError := true } i).1.isSpeaking
        = (step { s with speechError := false } i).1.isSpeaking)
    ∧ ((step { s with speechError := true } i).1.transcript
        = (step { s with speechError := false } i).1.transcript)
    ∧ ((step { s with speechError := true } i).2
        = (step { s with speechError := false } i).2)) := by
  refine ⟨by simp [onRecErrorEvent], by simp [onRecErrorEvent],
    by simp [onRecErrorEvent], by simp [onRecErrorEvent, onErrorClearTimer], ?_⟩
  intro i
  cases i with
  | startListening granted =>
      cases granted <;> cases hsup : s.isSupported <;> cases hlis : s.isListening <;>
        simp [step, startListening, stopListening, hsup, hlis]
  | stopListening =>
      cases hlis : s.isListening <;> simp [step, stopListening, hlis]
  | speak text =>
      by_cases ht : jsTrim text = "" <;> simp [step, speak, ht]
  | stopSpeaking => simp [step, stopSpeaking]
  | recStart => simp [step, onRecStartEvent]
  | recEnd => simp [step, onRecEndEvent]
  | recResult text isFinal =>
      cases isFinal <;> by_cases ht : jsTrim text = "" <;> simp [step, onRecResultEvent, ht]
  | recError notAllowed =>
      cases notAllowed <;> simp [step, onRecErrorEvent]
  | synthStart => simp [step]
  | synthDone => simp [step]
  | synthStopped => simp [step]
  | synthError => simp [step]
  | errorTimerFire =>
      cases hp : s.errorClearPending <;> simp [step, onErrorClearTimer, hp]

/-- Claim C9 witness: the error auto-clear statement at a concrete
listening state, with the independence conjunct sampled at the
`stopSpeaking` input. -/
theorem c9_witness :
    listeningState.isListening = true ∧
    (((onRecErrorEvent listeningState false).1.isListening = false)
  ∧ ((onRecErrorEvent listeningState false).1.speechError = true)
  ∧ (Effect.scheduleErrorClear 2000 ∈ (onRecErrorEvent listeningState false).2)
  ∧ ((onErrorClearTimer (onRecErrorEvent listeningState false).1).speechError = false)
  ∧ (∀ i : Input,
      ((step { listeningState with speechError := true } i).1.isListening
        = (step { listeningState with speechError := false } i).1.isListening)
    ∧ ((step { listeningState with speechError := true } i).1.isSpeaking
        = (step { listeningState with speechError := false } i).1.isSpeaking)
    ∧ ((step { listeningState with speechError := true } i).1.transcript
        = (step { listeningState with speechError := false } i).1.transcript)
    ∧ ((step { listeningState with speechError := true } i).2
        = (step { listeningState with speechError := false } i).2))) :=
  ⟨by decide, c9_error_flag_auto_clears listeningState (by decide)⟩

/-- Claim C10 counterexample: the two coordinator copies are not
observationally equivalent.  From equal states (both listening), a
`stopListening` call leaves the hook with `isListening = false` but the
inline SpeechManager copy with `isListening = true`. -/
theorem c10_stop_listening_differs :
    (listeningState.isListening = smListeningState.isListening)
  ∧ ((stopListening listeningState).1.isListening = false)
  ∧ ((SM.stopListening smListeningState).1.isListening = true) := by
  decide

/-- Claim C10 (amended): the two copies agree on recognizer error events —
both clear `isListening` immediately — but they differ on `stopListening`
(the hook clears `isListening` immediately, the inline copy leaves it
unchanged until the recognizer `end` event) and on how a recoverable error
is surfaced (the hook sets the transient `speechError` flag and shows no
dialog; the inline copy shows an alert dialog). -/
theorem c10_partial_agreement (s : SpeechState) (t : SMState) (b : Bool) :
    ((onRecErrorEvent s b).1.isListening = false)
  ∧ ((SM.onRecErrorEvent t b).1.isListening = false)
  ∧ ((stopListening s).1.isListening = false)
  ∧ ((SM.stopListening t).1.isListening = t.isListening)
  ∧ ((onRecErrorEvent s false).1.speechError = true)
  ∧ (Effect.alertShown speechErrorTitle ∈ (SM.onRecErrorEvent t false).2)
  ∧ (Effect.alertShown speechErrorTitle ∉ (onRecErrorEvent s false).2) := by
  refine ⟨?_, ?_, ?_, ?_, ?_, ?_, ?_⟩
  · cases b <;> simp [onRecErrorEvent]
  · cases b <;> simp [SM.onRecErrorEvent]
  · cases hl : s.isListening <;> simp [stopListening, hl]
  · cases hl : t.isListening <;> simp [SM.stopListening, hl]
  · simp [onRecErrorEvent]
  · simp [SM.onRecErrorEvent]
  · simp [onRecErrorEvent]
